import Mathlib

/-!
Verification of the `mappaScuole` dashboard script (`app.py`).

The computational core of the script is embedded shallowly:
* the Haversine distance `calcola_distanza_euclidea` over the reals
  (Python `math.sin`, `math.cos`, `math.atan2`, `math.sqrt` become their
  real counterparts; `math.atan2` is defined below with the usual
  quadrant case split);
* the bucket classifier `determina_fascia_distanza` and the
  filter/aggregate pipeline over rationals (every Python float value is a
  rational, and the comparisons and roundings the script performs on the
  dataframe are exact there);
* the route fetcher `get_route_data` relative to an abstract environment
  supplying the external `openrouteservice` client and polyline decoder;
* the per-band rendering loop as a function producing map elements,
  warnings and a trace of external calls.
-/

namespace MappaScuole

open Real

/-- Degrees to radians, the embedding of Python `math.radians`. -/
noncomputable def radians (x : ℝ) : ℝ := x * Real.pi / 180

/-- The two-argument arctangent, the embedding of Python `math.atan2 y x`:
the angle of the point `(x, y)`, in `(-π, π]`, with `atan2 0 0 = 0`. -/
noncomputable def atan2 (y x : ℝ) : ℝ :=
  if 0 < x then Real.arctan (y / x)
  else if x < 0 then
    (if 0 ≤ y then Real.arctan (y / x) + Real.pi else Real.arctan (y / x) - Real.pi)
  else if 0 < y then Real.pi / 2
  else if y < 0 then -(Real.pi / 2)
  else 0

/-- Embedding of `calcola_distanza_euclidea` (app.py lines 29-44): the
Haversine great-circle distance in km with Earth radius `R = 6371`. -/
noncomputable def calcola_distanza_euclidea (lat1 lon1 lat2 lon2 : ℝ) : ℝ :=
  let R : ℝ := 6371
  let lat1_rad := radians lat1
  let lon1_rad := radians lon1
  let lat2_rad := radians lat2
  let lon2_rad := radians lon2
  let dlat := lat2_rad - lat1_rad
  let dlon := lon2_rad - lon1_rad
  let a := Real.sin (dlat / 2) ^ 2 +
    Real.cos lat1_rad * Real.cos lat2_rad * Real.sin (dlon / 2) ^ 2
  let c := 2 * atan2 (Real.sqrt a) (Real.sqrt (1 - a))
  R * c

/-- Modelled from the spec wording of the Distance Engine contract:
convert both points to radians, form
`a = sin²(Δlat/2) + cos lat1 · cos lat2 · sin²(Δlon/2)` and return
`2·R·atan2(√a, √(1-a))` with `R = 6371`. Kept separate from the source
embedding so the two can be compared. -/
noncomputable def haversine_spec (lat1 lon1 lat2 lon2 : ℝ) : ℝ :=
  let phi1 := radians lat1
  let phi2 := radians lat2
  let lam1 := radians lon1
  let lam2 := radians lon2
  let a := Real.sin ((phi2 - phi1) / 2) ^ 2 +
    Real.cos phi1 * Real.cos phi2 * Real.sin ((lam2 - lam1) / 2) ^ 2
  2 * 6371 * atan2 (Real.sqrt a) (Real.sqrt (1 - a))

lemma atan2_nonneg {y x : ℝ} (hy : 0 ≤ y) (hx : 0 ≤ x) : 0 ≤ atan2 y x := by
  unfold atan2
  rcases hx.lt_or_eq with hx' | hx'
  · rw [if_pos hx']
    have h0 : (0:ℝ) ≤ y / x := div_nonneg hy hx'.le
    have h1 := Real.arctan_strictMono.monotone h0
    rwa [Real.arctan_zero] at h1
  · have hx0 : x = 0 := hx'.symm
    subst hx0
    simp only [lt_self_iff_false, if_false]
    rcases hy.lt_or_eq with hy' | hy'
    · rw [if_pos hy']
      positivity
    · have hy0 : y = 0 := hy'.symm
      subst hy0
      simp

lemma atan2_zero_one : atan2 0 1 = 0 := by
  unfold atan2
  rw [if_pos one_pos]
  simp [Real.arctan_zero]

/-- Claim C1: for every pair of coordinate pairs, the result of the Distance Engine
equals the haversine formula with Earth radius `R = 6371` km — both points in
radians, `a = sin²(Δlat/2) + cos lat1 · cos lat2 · sin²(Δlon/2)`, result
`2·R·atan2(√a, √(1-a))` — and the result is non-negative. -/
theorem C1_distance_engine_haversine (lat1 lon1 lat2 lon2 : ℝ) :
    calcola_distanza_euclidea lat1 lon1 lat2 lon2 = haversine_spec lat1 lon1 lat2 lon2 ∧
    0 ≤ calcola_distanza_euclidea lat1 lon1 lat2 lon2 := by
  constructor
  · simp only [calcola_distanza_euclidea, haversine_spec]
    ring
  · simp only [calcola_distanza_euclidea]
    exact mul_nonneg (by norm_num)
      (mul_nonneg (by norm_num) (atan2_nonneg (Real.sqrt_nonneg _) (Real.sqrt_nonneg _)))

/-- Claim C9: the Distance Engine returns 0 for identical points and is
symmetric in its two endpoints, exactly, under exact real arithmetic. -/
theorem C9_distance_zero_and_symmetric :
    (∀ lat lon : ℝ, calcola_distanza_euclidea lat lon lat lon = 0) ∧
    (∀ lat1 lon1 lat2 lon2 : ℝ,
      calcola_distanza_euclidea lat1 lon1 lat2 lon2 =
        calcola_distanza_euclidea lat2 lon2 lat1 lon1) := by
  constructor
  · intro lat lon
    simp [calcola_distanza_euclidea, sub_self, Real.sin_zero, Real.sqrt_zero,
      Real.sqrt_one, atan2_zero_one]
  · intro lat1 lon1 lat2 lon2
    have h : ∀ x y : ℝ, Real.sin ((x - y) / 2) ^ 2 = Real.sin ((y - x) / 2) ^ 2 := by
      intro x y
      rw [show (x - y) / 2 = -((y - x) / 2) by ring, Real.sin_neg]
      ring
    simp only [calcola_distanza_euclidea]
    rw [h (radians lat1) (radians lat2), h (radians lon1) (radians lon2),
      mul_comm (Real.cos (radians lat2)) (Real.cos (radians lat1))]

/-- Embedding of `determina_fascia_distanza` (app.py lines 46-53): the
three-bucket distance band classifier. The float distances of the dataframe are
modelled as rationals. -/
def determina_fascia_distanza (distanza_km : ℚ) : String :=
  if distanza_km ≤ 10 then "0-10 km"
  else if distanza_km ≤ 20 then "10-20 km"
  else "20+ km"

/-- Claim C2: the Bucket Classifier maps `d ≤ 10` to `"0-10 km"`,
`10 < d ≤ 20` to `"10-20 km"`, `d > 20` to `"20+ km"`; in particular 10
classifies as `"0-10 km"`, 10.0001 and 20 as `"10-20 km"`, and 20.0001 as
`"20+ km"`. -/
theorem C2_bucket_classifier (d : ℚ) :
    (d ≤ 10 → determina_fascia_distanza d = "0-10 km") ∧
    (10 < d → d ≤ 20 → determina_fascia_distanza d = "10-20 km") ∧
    (20 < d → determina_fascia_distanza d = "20+ km") ∧
    determina_fascia_distanza 10 = "0-10 km" ∧
    determina_fascia_distanza 10.0001 = "10-20 km" ∧
    determina_fascia_distanza 20 = "10-20 km" ∧
    determina_fascia_distanza 20.0001 = "20+ km" := by
  refine ⟨?_, ?_, ?_, ?_, ?_, ?_, ?_⟩
  · intro h1
    unfold determina_fascia_distanza
    rw [if_pos h1]
  · intro h1 h2
    unfold determina_fascia_distanza
    rw [if_neg (not_le.mpr h1), if_pos h2]
  · intro h1
    unfold determina_fascia_distanza
    rw [if_neg (not_le.mpr (lt_trans (by norm_num) h1)), if_neg (not_le.mpr h1)]
  · norm_num [determina_fascia_distanza]
  · norm_num [determina_fascia_distanza]
  · norm_num [determina_fascia_distanza]
  · norm_num [determina_fascia_distanza]

/-- Witness for C2 at concrete distances 5, 15 and 25. -/
theorem C2_bucket_classifier_witness :
    determina_fascia_distanza 5 = "0-10 km" ∧
    determina_fascia_distanza 15 = "10-20 km" ∧
    determina_fascia_distanza 25 = "20+ km" :=
  ⟨(C2_bucket_classifier 5).1 (by norm_num),
   (C2_bucket_classifier 15).2.1 (by norm_num) (by norm_num),
   (C2_bucket_classifier 25).2.2.1 (by norm_num)⟩

/-- Embedding of `colore_per_fascia` (app.py lines 55-61): fixed color lookup
with a `gray` fallback. -/
def colore_per_fascia (fascia : String) : String :=
  if fascia == "0-10 km" then "green"
  else if fascia == "10-20 km" then "orange"
  else if fascia == "20+ km" then "red"
  else "gray"

/-- A row of the `mappe_scuole` dataframe after the distance and band columns
have been attached (app.py lines 122-129). The capacity columns are kept as
strings because the script compares `sum_CON METODO MONTESSORI` to the string
sentinel `"S"`; column names with embedded spaces use underscores. -/
structure Row where
  Denominazione : String
  Comune : String
  Indirizzo : String
  latitudine : ℚ
  longitudine : ℚ
  sum_COMUNE : String
  sum_CON_METODO_MONTESSORI : String
  sum_SOSTEGNO_PSICOFISICO : String
  distanza_euclidea_km : ℚ
  fascia_distanza : String
deriving DecidableEq, Repr

/-- Embedding of the filter stage (app.py lines 131-135): keep the rows whose
band is among the selected bands, then, when the Montessori checkbox is on,
keep only the rows whose Montessori column equals `"S"`. -/
def df_filtrato (mappe_scuole : List Row) (fasce_selezionate : List String)
    (mostra_solo_montessori : Bool) : List Row :=
  let base := mappe_scuole.filter (fun r => fasce_selezionate.contains r.fascia_distanza)
  if mostra_solo_montessori then
    base.filter (fun r => r.sum_CON_METODO_MONTESSORI == "S")
  else base

/-- Claim C3: the pipeline retains exactly the records whose band is in the
selected band set and, when the Montessori flag is active, whose Montessori
column equals the sentinel `"S"`; the two filters compose by logical AND. -/
theorem C3_filter_composition (rows : List Row) (fasce : List String) (m : Bool) (r : Row) :
    r ∈ df_filtrato rows fasce m ↔
      r ∈ rows ∧ r.fascia_distanza ∈ fasce ∧
        (m = true → r.sum_CON_METODO_MONTESSORI = "S") := by
  cases m <;>
    simp [df_filtrato, List.mem_filter, and_assoc]
  tauto

/-- Witness for C3 at a concrete record set, band selection and active
Montessori flag. -/
theorem C3_filter_composition_witness :
    (⟨"A", "Monza", "via X", 45, 9, "10", "S", "0", 5, "0-10 km"⟩ : Row) ∈
      df_filtrato [⟨"A", "Monza", "via X", 45, 9, "10", "S", "0", 5, "0-10 km"⟩]
        ["0-10 km"] true :=
  (C3_filter_composition [⟨"A", "Monza", "via X", 45, 9, "10", "S", "0", 5, "0-10 km"⟩]
      ["0-10 km"] true ⟨"A", "Monza", "via X", 45, 9, "10", "S", "0", 5, "0-10 km"⟩).mpr
    ⟨by simp, by simp, fun _ => rfl⟩

/-- Rounding a rational to `n` decimal digits, the embedding of Python's
`round(x, n)` and pandas `.round(n)`; exact half-way ties (whose behavior in
Python depends on the binary float representation) round upward. -/
def roundTo (n : ℕ) (q : ℚ) : ℚ := ((round (q * 10 ^ n) : ℤ) : ℚ) / 10 ^ n

/-- Minimum of a list of rationals, 0 on the empty list (only ever applied to
nonempty groups, mirroring pandas `min` over a groupby group). -/
def qmin : List ℚ → ℚ
  | [] => 0
  | x :: xs => xs.foldl min x

/-- Maximum of a list of rationals, 0 on the empty list. -/
def qmax : List ℚ → ℚ
  | [] => 0
  | x :: xs => xs.foldl max x

/-- Arithmetic mean of a list of rationals (0 on the empty list, where the
rational division by zero is 0). -/
def qmean (l : List ℚ) : ℚ := l.sum / l.length

/-- One row of the per-band statistics table produced by the groupby
aggregation (app.py lines 257-260). -/
structure BandStats where
  fascia : String
  conteggio : ℕ
  min_dist : ℚ
  max_dist : ℚ
  mean_dist : ℚ
deriving DecidableEq, Repr

/-- Embedding of `stats_fascia` (app.py lines 257-260): group the filtered
rows by band and aggregate count, min, max and mean of the distance column,
rounded to 2 decimals. Groupby only creates groups for keys that occur, so
the bands are the distinct values of the band column. -/
def stats_fascia (df : List Row) : List BandStats :=
  ((df.map (fun r => r.fascia_distanza)).dedup).map (fun fascia =>
    let ds := (df.filter (fun r => r.fascia_distanza == fascia)).map
      (fun r => r.distanza_euclidea_km)
    ⟨fascia, ds.length, roundTo 2 (qmin ds), roundTo 2 (qmax ds), roundTo 2 (qmean ds)⟩)

/-- Embedding of the statistics display loop (app.py lines 262-270): for each
selected band, emit its statistics row when the band occurs in the groupby
index, and nothing otherwise. -/
def statsOutput (df : List Row) (fasce_selezionate : List String) : List BandStats :=
  fasce_selezionate.filterMap (fun fascia =>
    (stats_fascia df).find? (fun e => e.fascia == fascia))

/-- Claim C7: with an empty selected-band set the retained record set is empty
and the per-band statistics output is empty. -/
theorem C7_empty_band_selection (rows : List Row) (m : Bool) :
    df_filtrato rows [] m = [] ∧ statsOutput (df_filtrato rows [] m) [] = [] := by
  constructor
  · have hbase : rows.filter (fun r => ([] : List String).contains r.fascia_distanza) = [] := by
      simp
    cases m <;> simp [df_filtrato, hbase]
  · rfl

lemma find?_beq_self {l : List String} {a : String} (h : a ∈ l) :
    l.find? (fun b => b == a) = some a := by
  induction l with
  | nil => cases h
  | cons x xs ih =>
    by_cases hx : (x == a) = true
    · rw [List.find?_cons_of_pos (p := fun b => b == a) _ hx, beq_iff_eq.mp hx]
    · rw [List.find?_cons_of_neg (p := fun b => b == a) _ hx]
      rcases List.mem_cons.mp h with h1 | h1
      · exact absurd (beq_iff_eq.mpr h1.symm) hx
      · exact ih h1

lemma stats_fascia_find? {df : List Row} {fascia : String}
    (h : df.filter (fun r => r.fascia_distanza == fascia) ≠ []) :
    (stats_fascia df).find? (fun e => e.fascia == fascia) =
      some ⟨fascia,
        ((df.filter (fun r => r.fascia_distanza == fascia)).map
          (fun r => r.distanza_euclidea_km)).length,
        roundTo 2 (qmin ((df.filter (fun r => r.fascia_distanza == fascia)).map
          (fun r => r.distanza_euclidea_km))),
        roundTo 2 (qmax ((df.filter (fun r => r.fascia_distanza == fascia)).map
          (fun r => r.distanza_euclidea_km))),
        roundTo 2 (qmean ((df.filter (fun r => r.fascia_distanza == fascia)).map
          (fun r => r.distanza_euclidea_km)))⟩ := by
  obtain ⟨r, hr⟩ := List.exists_mem_of_ne_nil _ h
  have hrd : r ∈ df := (List.mem_filter.mp hr).1
  have hrf : r.fascia_distanza = fascia := beq_iff_eq.mp (List.mem_filter.mp hr).2
  have hmem : fascia ∈ (df.map (fun r => r.fascia_distanza)).dedup := by
    rw [List.mem_dedup]
    exact List.mem_map.mpr ⟨r, hrd, hrf⟩
  unfold stats_fascia
  rw [List.find?_map]
  have : ((df.map (fun r => r.fascia_distanza)).dedup).find?
      (fun b => b == fascia) = some fascia := find?_beq_self hmem
  simp only [Function.comp_def]
  rw [this]
  rfl

lemma stats_fascia_bands {df : List Row} {e : BandStats} (h : e ∈ stats_fascia df) :
    df.filter (fun r => r.fascia_distanza == e.fascia) ≠ [] := by
  unfold stats_fascia at h
  obtain ⟨b, hb, hbe⟩ := List.mem_map.mp h
  have hfe : e.fascia = b := by rw [← hbe]
  obtain ⟨r, hr, hrb⟩ := List.mem_map.mp (List.mem_dedup.mp hb)
  intro hnil
  have : r ∈ df.filter (fun r => r.fascia_distanza == e.fascia) :=
    List.mem_filter.mpr ⟨hr, beq_iff_eq.mpr (hrb.trans hfe.symm)⟩
  rw [hnil] at this
  cases this

/-- Claim C8: for every retained record set and every selected band with at
least one retained record, the statistics output reports the count, minimum,
maximum and mean of the distance within the band, rounded to 2 decimals; a
selected band with no retained record is absent from the output. -/
theorem C8_stats_per_band (df : List Row) (fasce : List String) (fascia : String)
    (hsel : fascia ∈ fasce) :
    (df.filter (fun r => r.fascia_distanza == fascia) ≠ [] →
      (⟨fascia,
        ((df.filter (fun r => r.fascia_distanza == fascia)).map
          (fun r => r.distanza_euclidea_km)).length,
        roundTo 2 (qmin ((df.filter (fun r => r.fascia_distanza == fascia)).map
          (fun r => r.distanza_euclidea_km))),
        roundTo 2 (qmax ((df.filter (fun r => r.fascia_distanza == fascia)).map
          (fun r => r.distanza_euclidea_km))),
        roundTo 2 (qmean ((df.filter (fun r => r.fascia_distanza == fascia)).map
          (fun r => r.distanza_euclidea_km)))⟩ : BandStats) ∈ statsOutput df fasce) ∧
    (df.filter (fun r => r.fascia_distanza == fascia) = [] →
      ∀ e ∈ statsOutput df fasce, e.fascia ≠ fascia) := by
  constructor
  · intro hne
    unfold statsOutput
    exact List.mem_filterMap.mpr ⟨fascia, hsel, stats_fascia_find? hne⟩
  · intro hnil e he hef
    obtain ⟨b, _, hfind⟩ := List.mem_filterMap.mp he
    have hmem : e ∈ stats_fascia df := List.mem_of_find?_eq_some hfind
    have := stats_fascia_bands hmem
    rw [hef] at this
    exact this hnil

/-- Witness for C8: a band with two retained schools at 3 km and 5 km reports
count 2, min 3, max 5, mean 4; the selected band `"10-20 km"`, which retains
no school, is absent from the output. -/
theorem C8_stats_per_band_witness :
    (⟨"0-10 km", 2, 3, 5, 4⟩ : BandStats) ∈
      statsOutput
        [⟨"A", "Monza", "via X", 45, 9, "10", "S", "0", 3, "0-10 km"⟩,
         ⟨"B", "Lecco", "via Y", 46, 9, "0", "N", "2", 5, "0-10 km"⟩]
        ["0-10 km", "10-20 km"] ∧
    ∀ e ∈ statsOutput
        [⟨"A", "Monza", "via X", 45, 9, "10", "S", "0", 3, "0-10 km"⟩,
         ⟨"B", "Lecco", "via Y", 46, 9, "0", "N", "2", 5, "0-10 km"⟩]
        ["0-10 km", "10-20 km"], e.fascia ≠ "10-20 km" := by
  constructor
  · have h := (C8_stats_per_band
      [⟨"A", "Monza", "via X", 45, 9, "10", "S", "0", 3, "0-10 km"⟩,
       ⟨"B", "Lecco", "via Y", 46, 9, "0", "N", "2", 5, "0-10 km"⟩]
      ["0-10 km", "10-20 km"] "0-10 km" (by simp)).1 (by decide)
    convert h using 2 <;>
      norm_num [roundTo, round_eq, qmin, qmax, qmean]
  · exact (C8_stats_per_band
      [⟨"A", "Monza", "via X", 45, 9, "10", "S", "0", 3, "0-10 km"⟩,
       ⟨"B", "Lecco", "via Y", 46, 9, "0", "N", "2", 5, "0-10 km"⟩]
      ["0-10 km", "10-20 km"] "10-20 km" (by simp)).2 (by decide)

/-- A row of the details table `df_display` (app.py lines 246-250): the
selected columns of the filtered dataframe under their renamed headers. -/
structure DisplayRow where
  Nome : String
  Comune : String
  Indirizzo : String
  Distanza_km : ℚ
  Fascia : String
  Posti_COMUNE : String
  Posti_Montessori : String
  Posti_Sostegno : String
deriving DecidableEq, Repr

/-- Column selection and renaming of app.py lines 246-249. -/
def toDisplayRow (r : Row) : DisplayRow :=
  ⟨r.Denominazione, r.Comune, r.Indirizzo, r.distanza_euclidea_km, r.fascia_distanza,
    r.sum_COMUNE, r.sum_CON_METODO_MONTESSORI, r.sum_SOSTEGNO_PSICOFISICO⟩

/-- The comparison used by `sort_values` on the column `Distanza (km)`: ascending order of
the distance column. -/
def leDistanza (a b : DisplayRow) : Prop := a.Distanza_km ≤ b.Distanza_km

instance : DecidableRel leDistanza := fun a b =>
  inferInstanceAs (Decidable (a.Distanza_km ≤ b.Distanza_km))

instance : IsTotal DisplayRow leDistanza := ⟨fun a b => le_total a.Distanza_km b.Distanza_km⟩

instance : IsTrans DisplayRow leDistanza := ⟨fun _ _ _ => le_trans⟩

/-- Embedding of `df_display` (app.py lines 246-250): project and rename the
columns of the filtered dataframe, then sort by the distance column in
ascending order. -/
def df_display (df : List Row) : List DisplayRow :=
  List.insertionSort leDistanza (df.map toDisplayRow)

/-- One CSV line for a display row, fields joined by commas. -/
def csvLine (r : DisplayRow) : String :=
  r.Nome ++ "," ++ r.Comune ++ "," ++ r.Indirizzo ++ "," ++ toString r.Distanza_km ++ "," ++
    r.Fascia ++ "," ++ r.Posti_COMUNE ++ "," ++ r.Posti_Montessori ++ "," ++ r.Posti_Sostegno

/-- The CSV header line emitted by `to_csv(index=False)`. -/
def csvHeader : String :=
  "Nome,Comune,Indirizzo,Distanza (km),Fascia,Posti_COMUNE,Posti_Montessori,Posti_Sostegno"

/-- Embedding of `df_display.to_csv(index=False)` (app.py line 280): the
header line followed by one line per display row, in dataframe order. -/
def to_csv (rows : List DisplayRow) : List String := csvHeader :: rows.map csvLine

/-- Claim C10: the displayed details table and the CSV export contain the
retained records sorted in ascending order of computed distance, regardless
of the input row order. -/
theorem C10_display_sorted_csv (rows : List Row) (fasce : List String) (m : Bool) :
    List.Sorted leDistanza (df_display (df_filtrato rows fasce m)) ∧
    (df_display (df_filtrato rows fasce m)).Perm ((df_filtrato rows fasce m).map toDisplayRow) ∧
    to_csv (df_display (df_filtrato rows fasce m)) =
      csvHeader :: (df_display (df_filtrato rows fasce m)).map csvLine ∧
    (∀ rows' : List Row, rows.Perm rows' →
      (df_display (df_filtrato rows' fasce m)).Perm
        (df_display (df_filtrato rows fasce m))) := by
  refine ⟨List.sorted_insertionSort leDistanza _, List.perm_insertionSort leDistanza _,
    rfl, ?_⟩
  intro rows' hp
  have h1 : (df_filtrato rows' fasce m).Perm (df_filtrato rows fasce m) := by
    unfold df_filtrato
    cases m
    · exact hp.symm.filter _
    · exact (hp.symm.filter _).filter _
  exact ((List.perm_insertionSort leDistanza _).trans (h1.map toDisplayRow)).trans
    (List.perm_insertionSort leDistanza _).symm

/-- Witness for C10: permuting a concrete two-row record set leaves the
displayed (sorted) table the same up to permutation. -/
theorem C10_display_sorted_csv_witness :
    (df_display (df_filtrato
        [⟨"B", "Lecco", "via Y", 46, 9, "0", "N", "2", 5, "0-10 km"⟩,
         ⟨"A", "Monza", "via X", 45, 9, "10", "S", "0", 3, "0-10 km"⟩]
        ["0-10 km"] false)).Perm
      (df_display (df_filtrato
        [⟨"A", "Monza", "via X", 45, 9, "10", "S", "0", 3, "0-10 km"⟩,
         ⟨"B", "Lecco", "via Y", 46, 9, "0", "N", "2", 5, "0-10 km"⟩]
        ["0-10 km"] false)) :=
  (C10_display_sorted_csv
    [⟨"A", "Monza", "via X", 45, 9, "10", "S", "0", 3, "0-10 km"⟩,
     ⟨"B", "Lecco", "via Y", 46, 9, "0", "N", "2", 5, "0-10 km"⟩]
    ["0-10 km"] false).2.2.2
    [⟨"B", "Lecco", "via Y", 46, 9, "0", "N", "2", 5, "0-10 km"⟩,
     ⟨"A", "Monza", "via X", 45, 9, "10", "S", "0", 3, "0-10 km"⟩]
    (List.Perm.swap _ _ _)

/-- The `summary` object of an ORS route: total duration in seconds and total
distance in meters. -/
structure ORSSummary where
  duration : ℚ
  distance : ℚ
deriving DecidableEq, Repr

/-- One entry of the `routes` array of an ORS response: an encoded polyline
and a summary. -/
structure ORSRoute where
  geometry : String
  summary : ORSSummary
deriving DecidableEq, Repr

/-- An ORS directions response: the `routes` array. -/
structure ORSResponse where
  routes : List ORSRoute
deriving DecidableEq, Repr

/-- The external `openrouteservice` collaborator, abstracted: `directions`
takes the coordinate pair (in the order the script passes it), the travel
profile and the API key, and either returns a response or fails (covering
network errors, malformed responses and authentication failures, all raised
as exceptions in Python); `decode_polyline` yields the encoded path as
`(lon, lat)` coordinate pairs, as the ORS decoder does. -/
structure ORSEnv where
  directions : (ℚ × ℚ) × (ℚ × ℚ) → String → String → Except String ORSResponse
  decode_polyline : String → List (ℚ × ℚ)

/-- The successful result of `get_route_data`: route points as `(lat, lon)`
pairs, duration in minutes and distance in km, each rounded to 1 decimal. -/
structure RouteData where
  points : List (ℚ × ℚ)
  duration_min : ℚ
  distance_km : ℚ
deriving DecidableEq, Repr

/-- The `st.warning` message emitted on a failed route computation
(app.py line 80). -/
def warnMsg (comune e : String) : String :=
  "Errore nel calcolo del percorso per " ++ comune ++ ": " ++ e

/-- Embedding of `get_route_data` (app.py lines 63-81). `start` and `fine`
are `(lat, lon)` pairs; the script passes them to the service swapped, as
`((start[1], start[0]), (end[1], end[0]))`, i.e. longitude first. The result
pairs the returned optional route with the warnings emitted: any exception on
the way — including the index error raised when the routes array of the response is
empty — is caught, warned about, and turned into `none`. -/
def get_route_data (env : ORSEnv) (start fine : ℚ × ℚ)
    (comune profile api_key : String) : Option RouteData × List String :=
  match env.directions ((start.2, start.1), (fine.2, fine.1)) profile api_key with
  | Except.error e => (none, [warnMsg comune e])
  | Except.ok routes =>
    match routes.routes with
    | [] => (none, [warnMsg comune ("list index out of range")])
    | route :: _ =>
      (some ⟨(env.decode_polyline route.geometry).map (fun p => (p.2, p.1)),
        roundTo 1 (route.summary.duration / 60),
        roundTo 1 (route.summary.distance / 1000)⟩, [])

/-- An element drawn on the folium map for one school: the marker carries the
popup bike duration and distance texts (the `minuti_bici` / `km_bici`
placeholders or values) and the band color; the polyline carries the route
points and the band color. -/
inductive MapElement where
  | marker (location : ℚ × ℚ) (minuti_bici km_bici colore : String)
  | polyline (points : List (ℚ × ℚ)) (colore : String)
deriving DecidableEq, Repr

/-- Embedding of the per-school body of the band loop (app.py lines 176-232):
`minuti_bici` and `km_bici` start as `"?"`; when route display is on and the
API key is non-empty the route is fetched; on success a polyline is added and
the placeholders are replaced; the school marker is always added. Returns the
map elements added for the school together with the warnings emitted. -/
def renderSchool (env : ORSEnv) (mostra_percorsi : Bool) (api_key : String)
    (start_coords : ℚ × ℚ) (row : Row) (colore_fascia : String) :
    List MapElement × List String :=
  let res := if mostra_percorsi && !(api_key == "") then
      get_route_data env start_coords (row.latitudine, row.longitudine) row.Comune
        ("cycling-regular") api_key
    else (none, [])
  match res with
  | (none, warns) =>
    ([MapElement.marker (row.latitudine, row.longitudine) "?" "?" colore_fascia], warns)
  | (some bici, warns) =>
    ([MapElement.polyline bici.points colore_fascia,
      MapElement.marker (row.latitudine, row.longitudine) (toString bici.duration_min)
        (toString bici.distance_km) colore_fascia], warns)

/-- Claim C4: on any failure of the routing call — an exception from the
client (network, malformed response, authentication) or an empty `routes`
array — `get_route_data` returns `none` after reporting a warning instead of
raising, and the caller still renders the marker of the school with `"?"`
placeholders for duration and distance and draws no polyline for it. -/
theorem C4_route_failure_degrades (env : ORSEnv) (start_coords : ℚ × ℚ) (row : Row)
    (colore api_key : String) (hkey : api_key ≠ "")
    (hfail :
      (∃ e, env.directions ((start_coords.2, start_coords.1),
          (row.longitudine, row.latitudine)) "cycling-regular" api_key =
        Except.error e) ∨
      env.directions ((start_coords.2, start_coords.1),
          (row.longitudine, row.latitudine)) "cycling-regular" api_key =
        Except.ok ⟨[]⟩) :
    (get_route_data env start_coords (row.latitudine, row.longitudine) row.Comune
        ("cycling-regular") api_key).1 = none ∧
    (get_route_data env start_coords (row.latitudine, row.longitudine) row.Comune
        ("cycling-regular") api_key).2 ≠ [] ∧
    (renderSchool env true api_key start_coords row colore).1 =
      [MapElement.marker (row.latitudine, row.longitudine) "?" "?" colore] ∧
    (∀ pts c, MapElement.polyline pts c ∉ (renderSchool env true api_key start_coords row colore).1) := by
  have hb : (api_key == "") = false := beq_eq_false_iff_ne.mpr hkey
  rcases hfail with ⟨e, he⟩ | hok
  · refine ⟨?_, ?_, ?_, ?_⟩ <;> simp [get_route_data, renderSchool, hb, he, warnMsg]
  · refine ⟨?_, ?_, ?_, ?_⟩ <;> simp [get_route_data, renderSchool, hb, hok, warnMsg]

/-- A concrete failing routing collaborator for the C4 witness. -/
def envFail : ORSEnv :=
  ⟨fun _ _ _ => Except.error ("HTTPError 403"), fun _ => []⟩

/-- Witness for C4 with a failing routing collaborator: the marker of the school is
rendered with the placeholders and no polyline is drawn. -/
theorem C4_route_failure_degrades_witness :
    (renderSchool envFail true ("k") (45.5586, 9.3081)
        ⟨"A", "Monza", "via X", 45, 9, "10", "S", "0", 5, "0-10 km"⟩ "green").1 =
      [MapElement.marker (45, 9) "?" "?" "green"] :=
  (C4_route_failure_degrades envFail (45.5586, 9.3081)
    ⟨"A", "Monza", "via X", 45, 9, "10", "S", "0", 5, "0-10 km"⟩ "green" "k"
    (by decide) (Or.inl ⟨"HTTPError 403", rfl⟩)).2.2.1

/-- Claim C5: on a successful routing call, `get_route_data` passes the
coordinates to the service longitude-first, decodes the returned encoded path
into an ordered list of `(lat, lon)` points, and returns the summary duration
converted from seconds to minutes and the summary distance converted from
meters to kilometers, each rounded to 1 decimal. -/
theorem C5_route_success (env : ORSEnv) (slat slon elat elon : ℚ)
    (comune profile api_key : String) (route : ORSRoute) (rest : List ORSRoute)
    (hok : env.directions ((slon, slat), (elon, elat)) profile api_key =
      Except.ok ⟨route :: rest⟩) :
    get_route_data env (slat, slon) (elat, elon) comune profile api_key =
      (some ⟨(env.decode_polyline route.geometry).map (fun p => (p.2, p.1)),
        roundTo 1 (route.summary.duration / 60),
        roundTo 1 (route.summary.distance / 1000)⟩, []) := by
  simp [get_route_data, hok]

/-- A concrete succeeding routing collaborator for the C5 witness: one route
with a 90 s, 2540 m summary whose decoded polyline is two `(lon, lat)`
points. -/
def envOk : ORSEnv :=
  ⟨fun _ _ _ => Except.ok ⟨[⟨"g", ⟨90, 2540⟩⟩]⟩, fun _ => [(9, 45), (10, 46)]⟩

/-- Witness for C5: the concrete call yields the swapped `(lat, lon)` points,
1.5 minutes and 2.5 km. -/
theorem C5_route_success_witness :
    get_route_data envOk (45.5586, 9.3081) (45.6, 9.4) "Monza" "cycling-regular" "k" =
      (some ⟨[(45, 9), (46, 10)], 1.5, 2.5⟩, []) := by
  rw [C5_route_success envOk 45.5586 9.3081 45.6 9.4 "Monza" "cycling-regular" "k"
    ⟨"g", ⟨90, 2540⟩⟩ [] rfl]
  norm_num [envOk, roundTo, round_eq]

/-- Observable events of the band loop: one external routing call per school,
and a pause (which the claim asserts happens after each band; the loop in
app.py lines 170-237 contains no sleep, so the embedding never emits one). -/
inductive TraceEvent where
  | routeCall (comune : String)
  | pause
deriving DecidableEq, Repr

/-- Embedding of the control flow of the per-band loop (app.py lines
170-237) as the ordered trace of its external interactions: for each selected
band, in order, for each filtered school of that band, in order, one routing
call when route display is on and the API key is non-empty. The `import time`
at the top of the script is never used: no pause instruction occurs anywhere
in the loop. -/
def bandLoopTrace (fasce_selezionate : List String) (df : List Row)
    (mostra_percorsi : Bool) (api_key : String) : List TraceEvent :=
  fasce_selezionate.flatMap (fun fascia =>
    let scuole_fascia := df.filter (fun r => r.fascia_distanza == fascia)
    if 0 < scuole_fascia.length then
      scuole_fascia.flatMap (fun row =>
        if mostra_percorsi && !(api_key == "") then [TraceEvent.routeCall row.Comune]
        else [])
    else [])

/-- Counterexample to C6: with two selected bands holding one school each, the
trace of the loop is the two routing calls back to back — after the first band is
processed no pause is executed before the second band begins, and no pause
occurs anywhere in the trace. -/
theorem C6_no_pause_counterexample :
    bandLoopTrace ["0-10 km", "10-20 km"]
        [⟨"A", "Monza", "via X", 45, 9, "10", "S", "0", 5, "0-10 km"⟩,
         ⟨"C", "Como", "via Z", 45, 8, "3", "N", "1", 15, "10-20 km"⟩]
        true ("k") =
      [TraceEvent.routeCall ("Monza"), TraceEvent.routeCall ("Como")] ∧
    TraceEvent.pause ∉
      bandLoopTrace ["0-10 km", "10-20 km"]
        [⟨"A", "Monza", "via X", 45, 9, "10", "S", "0", 5, "0-10 km"⟩,
         ⟨"C", "Como", "via Z", 45, 8, "3", "N", "1", 15, "10-20 km"⟩]
        true ("k") := by
  constructor
  · rfl
  · decide

/-- Claim C6 as amended: records are processed strictly sequentially — the
trace is exactly one routing call per retained record, in band order then
row order — but no pause is ever executed, neither after a band nor anywhere
else (the script imports `time` yet never calls it). -/
theorem C6_sequential_no_pause (fasce : List String) (df : List Row)
    (mostra_percorsi : Bool) (api_key : String) :
    TraceEvent.pause ∉ bandLoopTrace fasce df mostra_percorsi api_key ∧
    (mostra_percorsi = true → api_key ≠ "" →
      bandLoopTrace fasce df mostra_percorsi api_key =
        (fasce.flatMap (fun fascia =>
          df.filter (fun r => r.fascia_distanza == fascia))).map
          (fun r => TraceEvent.routeCall r.Comune)) := by
  constructor
  · intro hmem
    rw [bandLoopTrace, List.mem_flatMap] at hmem
    obtain ⟨fascia, _, hmem2⟩ := hmem
    simp only at hmem2
    split at hmem2
    · rw [List.mem_flatMap] at hmem2
      obtain ⟨row, _, hmem3⟩ := hmem2
      split at hmem3 <;> simp at hmem3
    · cases hmem2
  · intro hmp hkey
    subst hmp
    have hb : (api_key == "") = false := beq_eq_false_iff_ne.mpr hkey
    simp only [bandLoopTrace]
    rw [List.map_flatMap]
    congr 1
    funext fascia
    simp only [hb, Bool.not_false, Bool.and_self]
    generalize df.filter (fun r => r.fascia_distanza == fascia) = l
    cases l with
    | nil => rfl
    | cons x xs =>
      simp only [List.length_cons, Nat.zero_lt_succ, if_true]
      induction (x :: xs) with
      | nil => rfl
      | cons y ys ih => simp [ih]

/-- Witness for the amended C6 at a concrete record set and band selection. -/
theorem C6_sequential_no_pause_witness :
    TraceEvent.pause ∉
      bandLoopTrace ["0-10 km"]
        [⟨"A", "Monza", "via X", 45, 9, "10", "S", "0", 5, "0-10 km"⟩] true ("k") ∧
    bandLoopTrace ["0-10 km"]
        [⟨"A", "Monza", "via X", 45, 9, "10", "S", "0", 5, "0-10 km"⟩] true ("k") =
      ((["0-10 km"] : List String).flatMap (fun fascia =>
        [(⟨"A", "Monza", "via X", 45, 9, "10", "S", "0", 5, "0-10 km"⟩ : Row)].filter
          (fun r => r.fascia_distanza == fascia))).map
        (fun r => TraceEvent.routeCall r.Comune) :=
  ⟨(C6_sequential_no_pause ["0-10 km"]
      [⟨"A", "Monza", "via X", 45, 9, "10", "S", "0", 5, "0-10 km"⟩] true ("k")).1,
   (C6_sequential_no_pause ["0-10 km"]
      [⟨"A", "Monza", "via X", 45, 9, "10", "S", "0", 5, "0-10 km"⟩] true ("k")).2
     rfl (by decide)⟩

end MappaScuole
